import Mathlib

set_option maxRecDepth 40000

/-!
Shallow embedding of the detection engine of the stylus-analyzer repository
(files `stylus_analyzer/detectors/unchecked_transfer.py` and
`stylus_analyzer/detectors/unsafe_transfer.py`), together with theorems
settling the frozen claims about it.

Modelling conventions:
* Python strings are Lean `String`s; the sources are effectively ASCII, so a
  tree-sitter byte offset is identified with a character offset.
* The Python string operations used by the detectors (`in`, `split`,
  `strip`, `replace`, `lower`, `find`, `count`, `startswith`, `endswith`)
  are re-implemented by structural recursion over `List Char` so that every
  concrete run of a detector is checkable by kernel reduction.
* A tree-sitter `Node` is a `RawNode`; parent / sibling links are modelled by
  a zipper (`Frame` list), and `child_by_field_name "condition"` by the
  `condIdx` field recording which child carries the `condition` field label.
* The issue sink is modelled functionally: each detector returns the ordered
  list of issues it appends.
-/

namespace StylusAnalyzer

/-- Split a character list at every occurrence of the character `c`,
keeping empty pieces (Python `s.split(c)` for a one-character separator). -/
def splitCh (c : Char) : List Char → List (List Char)
  | [] => [[]]
  | x :: xs =>
    if x == c then [] :: splitCh c xs
    else
      match splitCh c xs with
      | [] => [[x]]
      | h :: t => (x :: h) :: t

/-- Split a character list at every occurrence of the (non-empty) pattern
`pat`, scanning left to right without overlap; the first argument is
recursion fuel (one unit per consumed character suffices). -/
def splitPatGo (pat : List Char) : Nat → List Char → List Char → List (List Char)
  | 0, s, cur => [cur.reverse ++ s]
  | _ + 1, [], cur => [cur.reverse]
  | fuel + 1, x :: xs, cur =>
    if (x :: xs).take pat.length == pat then
      cur.reverse :: splitPatGo pat fuel ((x :: xs).drop pat.length) []
    else splitPatGo pat fuel xs (x :: cur)

/-- Python `s.split(pat)` for a multi-character separator. -/
def pySplitStr (s pat : String) : List String :=
  if pat.toList.isEmpty then [s]
  else (splitPatGo pat.toList (s.toList.length + 1) s.toList []).map String.mk

/-- Python `s.split(c)` for a one-character separator. -/
def pySplitCh (c : Char) (s : String) : List String :=
  (splitCh c s.toList).map String.mk

/-- Python `s.split('\n')`. -/
def pyLines (s : String) : List String :=
  pySplitCh '\n' s

/-- Python `s.strip()` on a character list. -/
def trimL (l : List Char) : List Char :=
  ((l.dropWhile Char.isWhitespace).reverse.dropWhile Char.isWhitespace).reverse

/-- Python `s.strip()`. -/
def pyTrim (s : String) : String :=
  String.mk (trimL s.toList)

/-- Python `s.startswith(p)`. -/
def pyStartsWith (s p : String) : Bool :=
  s.toList.take p.toList.length == p.toList

/-- Python `s.endswith(p)`. -/
def pyEndsWith (s p : String) : Bool :=
  s.toList.reverse.take p.toList.length == p.toList.reverse

/-- Python `s.lower()`. -/
def pyLower (s : String) : String :=
  String.mk (s.toList.map Char.toLower)

/-- Python `s.replace(" ", "")` (the only `replace` the detectors use:
deleting every space). -/
def pyRemoveSpaces (s : String) : String :=
  String.mk (s.toList.filter (fun c => !(c == ' ')))

/-- Python `s.split()` (split on whitespace runs, dropping empty pieces). -/
def splitPred (p : Char → Bool) : List Char → List (List Char)
  | [] => [[]]
  | x :: xs =>
    if p x then [] :: splitPred p xs
    else
      match splitPred p xs with
      | [] => [[x]]
      | h :: t => (x :: h) :: t

/-- Python `s.split()`. -/
def pyWords (s : String) : List String :=
  ((splitPred Char.isWhitespace s.toList).filter (fun w => w ≠ [])).map String.mk

/-- First index at which `pat` occurs as a contiguous sublist of `hay`,
if any (Python `str.find`, with `none` for -1). -/
def subIdx (hay pat : List Char) : Option Nat :=
  match hay with
  | [] => if pat.isEmpty then some 0 else none
  | _ :: t =>
    if hay.take pat.length == pat then some 0
    else (subIdx t pat).map (· + 1)

/-- Python substring test `needle in hay`. -/
def strContains (hay needle : String) : Bool :=
  (subIdx hay.toList needle.toList).isSome

/-- Python `s.find(p)` returning `none` instead of `-1`. -/
def strFind (s p : String) : Option Nat :=
  subIdx s.toList p.toList

/-- Python `s.find(p, start)` returning `none` instead of `-1`. -/
def strFindFrom (s p : String) (start : Nat) : Option Nat :=
  (subIdx (s.toList.drop start) p.toList).map (· + start)

/-- Python slice `s[a:b]` (character = byte offsets on ASCII sources). -/
def pySlice (s : String) (a b : Nat) : String :=
  String.mk ((s.toList.drop a).take (b - a))

/-- Python prefix slice `s[:b]`. -/
def pyTake (s : String) (b : Nat) : String :=
  String.mk (s.toList.take b)

/-- Python `s.count(c)` for a single character. -/
def countChar (s : String) (c : Char) : Nat :=
  (s.toList.filter (fun x => x == c)).length

/-- An issue as appended to the analysis sink by `add_issue`. -/
structure Issue where
  issue_type : String
  severity : String
  description : String
  line_start : Nat
  line_end : Nat
  code_snippet : String
  recommendation : String
deriving Repr, DecidableEq

/-- A tree-sitter syntax node: type tag, byte range, start/end rows
(0-based, as in `start_point`/`end_point`), the index of the child that
carries the `condition` field label (if any), and the ordered children. -/
inductive RawNode : Type where
  | mk : String → Nat → Nat → Nat → Nat → Option Nat → List RawNode → RawNode

namespace RawNode

def type : RawNode → String
  | .mk t _ _ _ _ _ _ => t

def startByte : RawNode → Nat
  | .mk _ sb _ _ _ _ _ => sb

def endByte : RawNode → Nat
  | .mk _ _ eb _ _ _ _ => eb

def startRow : RawNode → Nat
  | .mk _ _ _ sr _ _ _ => sr

def endRow : RawNode → Nat
  | .mk _ _ _ _ er _ _ => er

def condIdx : RawNode → Option Nat
  | .mk _ _ _ _ _ ci _ => ci

def children : RawNode → List RawNode
  | .mk _ _ _ _ _ _ cs => cs

end RawNode

/-- Modelled from the spec: `_get_node_text` of the (absent) detector base
class returns the exact substring of the source spanned by the node's byte
range. -/
def nodeText (code : String) (n : RawNode) : String :=
  pySlice code n.startByte n.endByte

/-- Modelled from the spec: `_get_line_for_node` of the (absent) detector
base class converts the node's start/end rows to inclusive 1-based line
numbers. -/
def lineForNode (n : RawNode) : Nat × Nat :=
  (n.startRow + 1, n.endRow + 1)

/-- One zipper frame: all data of the parent node except the hole, with the
hole's left siblings stored reversed. -/
structure Frame where
  type : String
  startByte : Nat
  endByte : Nat
  startRow : Nat
  endRow : Nat
  condIdx : Option Nat
  leftRev : List RawNode
  right : List RawNode

/-- Rebuild the parent node from a frame and the node filling its hole. -/
def Frame.plug (f : Frame) (n : RawNode) : RawNode :=
  .mk f.type f.startByte f.endByte f.startRow f.endRow f.condIdx
    (f.leftRev.reverse ++ n :: f.right)

/-- Source text spanned by the node a frame describes. -/
def Frame.text (code : String) (f : Frame) : String :=
  pySlice code f.startByte f.endByte

/-- Siblings to the right of the node whose context is `fs` (used for
`next_sibling` chains). -/
def siblingsAfter (fs : List Frame) : List RawNode :=
  match fs with
  | [] => []
  | g :: _ => g.right

/-- `_find_parent_function`: the nearest ancestor of type `function_item` or
`impl_item`, as its frame (which carries its byte range). -/
def findParentFunction (frames : List Frame) : Option Frame :=
  frames.find? (fun f => f.type == "function_item" || f.type == "impl_item")

/-- `_is_token_interface_call`: an ERC20-method call is a token-interface
call when the enclosing function mentions IERC20 or IERC20 occurs before the
call in the source. -/
def isTokenInterfaceCall (code : String) (frames : List Frame) (n : RawNode) : Bool :=
  let callText := nodeText code n
  if [".transfer(", ".transferFrom(", ".approve("].any (fun m => strContains callText m) then
    (match findParentFunction frames with
     | some fn => strContains (fn.text code) "IERC20"
     | none => false)
    || strContains (pyTake code n.startByte) "IERC20"
  else false

/-- The three guard patterns searched for a bound transfer result
(`if !x`, `if x`, `require(x`). -/
def letGuardHit (v text : String) : Bool :=
  strContains text ("if !" ++ v) || strContains text ("if " ++ v) ||
  strContains text ("require(" ++ v)

/-- The commented-out guard patterns (`// if !x`, `// if x`, `// require(x`),
which mark the result as deliberately unchecked. -/
def letCommentHit (v text : String) : Bool :=
  strContains text ("// if !" ++ v) || strContains text ("// if " ++ v) ||
  strContains text ("// require(" ++ v)

/-- Decision for a named `let` binding of a transfer result (the body of the
`var_name and var_name != "_"` case of `_is_return_value_checked`): commented
guards and unguarded `return var` lines force unchecked, a real guard in the
enclosing function makes it checked, otherwise the following siblings are
searched for a guard. -/
def letBindingChecked (code : String) (origFrames : List Frame) (v : String)
    (siblings : List RawNode) : Bool :=
  let bySibling : Bool :=
    siblings.any (fun s =>
      strContains (nodeText code s) v && letGuardHit v (nodeText code s))
  match findParentFunction origFrames with
  | some fn =>
    let ft := fn.text code
    if letCommentHit v ft then false
    else if (pyLines ft).any (fun l =>
        strContains l ("return " ++ v) && !strContains l "if" &&
        !strContains l "require") then false
    else if letGuardHit v ft then true
    else bySibling
  | none => bySibling

/-- One iteration body of the ancestor walk of `_is_return_value_checked`.
Returns `some b` when the Python loop returns `b`, `none` when it moves to
the next ancestor. `condFlag` is true exactly when the current ancestor's
`condition`-field child is the original call node (only possible for the
immediate parent, since node equality in the source is node identity). -/
def rvStep (code : String) (origFrames : List Frame) (condFlag : Bool)
    (cur : RawNode) (fs : List Frame) : Option Bool :=
  let curText := nodeText code cur
  let rest : Option Bool :=
    if cur.type == "if_expression" && condFlag then some true
    else if cur.type == "return_expression" then
      some (strContains curText "if" || strContains curText "require")
    else none
  if cur.type == "let_declaration" && strContains curText ".transfer" then
    match (cur.children.find? (fun c => c.type == "identifier")).map (nodeText code) with
    | some v =>
      if v != "" && v != "_" then
        some (letBindingChecked code origFrames v (siblingsAfter fs))
      else if v == "_" then some false
      else rest
    | none => rest
  else rest

/-- The ancestor walk of `_is_return_value_checked`: climb until a `block`
(or the root), applying `rvStep` at each ancestor. -/
def rvLoop (code : String) (origFrames : List Frame) :
    Bool → RawNode → List Frame → Bool
  | condFlag, cur, fs =>
    if cur.type == "block" then false
    else
      match rvStep code origFrames condFlag cur fs with
      | some b => b
      | none =>
        match fs with
        | [] => false
        | g :: gs => rvLoop code origFrames false (g.plug cur) gs

/-- `_is_return_value_checked` for a token transfer call located by
`frames`. A parentless call is outside the modelled domain (the source
dereferences the missing parent there); it is mapped to `false`. -/
def isReturnValueChecked (code : String) (frames : List Frame) (n : RawNode) : Bool :=
  match frames with
  | [] => false
  | f :: fs =>
    let parent := f.plug n
    let pre : Option Bool :=
      if parent.type == "expression_statement" then
        let e := nodeText code parent
        if strContains e "let _ =" then some false
        else if !(pyStartsWith (pyTrim e) "let") then some false
        else none
      else none
    match pre with
    | some b => b
    | none =>
      rvLoop code (f :: fs) (f.condIdx == some f.leftRev.length) parent fs

/-- The ancestor walk of `_is_call_result_checked`: climb until a
`function_item` (or the root), looking for a `bool success` binding plus a
guard in the enclosing function. -/
def crLoop (code : String) (origFrames : List Frame) : RawNode → List Frame → Bool
  | cur, fs =>
    if cur.type == "function_item" then false
    else
      let t := nodeText code cur
      let hit : Bool :=
        if strContains t "(bool success," || strContains t "bool success" then
          match findParentFunction origFrames with
          | some fn =>
            let ft := fn.text code
            strContains ft "require(success" || strContains ft "if success" ||
            strContains ft "if !success"
          | none => false
        else false
      if hit then true
      else
        match fs with
        | [] => false
        | g :: gs => crLoop code origFrames (g.plug cur) gs

/-- `_is_call_result_checked` for a low-level call located by `frames`. -/
def isCallResultChecked (code : String) (frames : List Frame) (n : RawNode) : Bool :=
  match frames with
  | [] => false
  | f :: fs =>
    let parent := f.plug n
    if parent.type == "expression_statement" then false
    else crLoop code (f :: fs) parent fs

/-- Arm scan of `_is_transfer_error_ignored`: the first `match_arm` child
whose text mentions `Err` decides (empty body means ignored; a `return` or
`revert` means handled); otherwise scanning continues. -/
def transferErrorIgnoredArms (code : String) : List RawNode → Bool
  | [] => false
  | c :: restCs =>
    if c.type == "match_arm" && strContains (nodeText code c) "Err" then
      let armText := nodeText code c
      let squeezed := pyRemoveSpaces armText
      if strContains squeezed "=> \x7b\x7d" || strContains squeezed "=>\x7b\x7d" then true
      else if strContains armText "return" || strContains armText "revert" then false
      else transferErrorIgnoredArms code restCs
    else transferErrorIgnoredArms code restCs

/-- `_is_transfer_error_ignored` on a match expression node. -/
def isTransferErrorIgnored (code : String) (n : RawNode) : Bool :=
  transferErrorIgnoredArms code n.children

/-- Issues emitted at one node by `_find_unchecked_transfers` (before
recursing into children). -/
def uncheckedHere (code : String) (frames : List Frame) (n : RawNode) : List Issue :=
  if n.type == "call_expression" then
    let callText := nodeText code n
    if strContains callText ".transfer(" || strContains callText ".transferFrom(" then
      if isTokenInterfaceCall code frames n && !isReturnValueChecked code frames n then
        [⟨"unchecked_transfer", "High",
          "ERC20 transfer call with unchecked return value. This can lead to silent failures.",
          n.startRow + 1, n.endRow + 1, callText,
          "Check the boolean return value of transfer calls (e.g., `if !success \x7b revert \x7d`)."⟩]
      else []
    else if strContains callText ".call(" && strContains callText "transfer" then
      if !isCallResultChecked code frames n then
        [⟨"unchecked_transfer", "High",
          "Low-level call to transfer function without checking return value.",
          n.startRow + 1, n.endRow + 1, callText,
          "Check the return value using `(bool success, bytes memory returnData) = ...` and verify success."⟩]
      else []
    else []
  else if n.type == "match_expression" then
    let matchText := nodeText code n
    if strContains matchText "transfer" && isTransferErrorIgnored code n then
      [⟨"unchecked_transfer", "High",
        "Transfer errors are explicitly caught and ignored. This can lead to silent failures.",
        n.startRow + 1, n.endRow + 1, matchText,
        "Handle errors appropriately by propagating them or providing fallback behavior."⟩]
    else []
  else []

mutual

/-- `_find_unchecked_transfers`: pre-order traversal emitting issues at
call and match expressions, then in each child in order. -/
def findUnchecked (code : String) (frames : List Frame) : RawNode → List Issue
  | .mk ty sb eb sr er ci cs =>
    uncheckedHere code frames (.mk ty sb eb sr er ci cs) ++
      findUncheckedChildren code ty sb eb sr er ci frames [] cs

/-- Child recursion of `_find_unchecked_transfers`, building each child's
zipper frame from the parent's data and the child's siblings. -/
def findUncheckedChildren (code : String) (ty : String) (sb eb sr er : Nat)
    (ci : Option Nat) (frames : List Frame) (leftRev : List RawNode) :
    List RawNode → List Issue
  | [] => []
  | c :: rest =>
    findUnchecked code
      ({ type := ty, startByte := sb, endByte := eb, startRow := sr, endRow := er,
         condIdx := ci, leftRev := leftRev, right := rest } :: frames) c
    ++ findUncheckedChildren code ty sb eb sr er ci frames (c :: leftRev) rest

end

/-- A section of source text inside a `sol!` block, with the line counter
the extractor attaches to it. -/
structure SolSection where
  code : String
  start_line : Nat
deriving Repr, DecidableEq

/-- A line that terminates a `sol!` section: it contains `\x7d` and its
stripped form is, or ends with, `\x7d`. -/
def isClosingLine (line : String) : Bool :=
  strContains line "\x7d" && (pyTrim line == "\x7d" || pyEndsWith (pyTrim line) "\x7d")

/-- Line scan of `_extract_sol_macro_sections`: `st` carries the recorded
start line and accumulated text while inside a `sol!` block. -/
def extractGo : List String → Nat → Option (Nat × String) → List SolSection
  | [], _, _ => []
  | line :: rest, i, st =>
    if strContains line "sol! \x7b" then
      extractGo rest (i + 1) (some (i + 1, ""))
    else
      match st with
      | some (sl, acc) =>
        let acc2 := acc ++ line ++ "\n"
        if isClosingLine line then
          ⟨acc2, sl⟩ :: extractGo rest (i + 1) none
        else
          extractGo rest (i + 1) (some (sl, acc2))
      | none => extractGo rest (i + 1) none

/-- `_extract_sol_macro_sections` over a whole source string. -/
def extractSolSections (code : String) : List SolSection :=
  extractGo (pyLines code) 0 none

/-- Function body accumulation of `_find_solidity_unchecked_transfers`:
brace-count over the remaining lines (starting at the declaring line) until
balanced closure. -/
def extractFuncBody : List String → Int → Bool → String → String
  | [], _, _, acc => acc
  | l :: rest, bc, inF, acc =>
    let inF2 := if strContains l "\x7b" then true else inF
    let bc2 := if strContains l "\x7b" then bc + (countChar l '\x7b' : Int) else bc
    let acc2 := if inF2 then acc ++ l ++ "\n" else acc
    if strContains l "\x7d" then
      let bc3 := bc2 - (countChar l '\x7d' : Int)
      if bc3 == 0 && inF2 then acc2
      else extractFuncBody rest bc3 inF2 acc2
    else extractFuncBody rest bc2 inF2 acc2

/-- Function-name extraction `line.split("function ")[1].split("(")[0].strip()`. -/
def solFuncName (line : String) : String :=
  pyTrim ((pySplitCh '(' ((pySplitStr line "function ").getD 1 "")).headD "")

/-- First body line containing `.call(` and a transfer mention, with its
offset (the transfer-line search of `_find_solidity_unchecked_transfers`). -/
def findTransferLine : List String → Nat → Option (Nat × String)
  | [], _ => none
  | l :: rest, k =>
    if strContains l ".call(" && (strContains l "transfer" || strContains l "transferFrom") then
      some (k, pyTrim l)
    else findTransferLine rest (k + 1)

/-- Per-line processing of `_find_solidity_unchecked_transfers` at line
index `i`; `suffix` is the list of lines from index `i` on. -/
def findSolLine (startLine i : Nat) (line : String) (suffix : List String) : List Issue :=
  if strContains line "function " && strContains line "transfer" then
    let functionName := solFuncName line
    let funcBody := extractFuncBody suffix 0 false ""
    if functionName != "" && strContains funcBody ".call(" &&
        (strContains funcBody "transfer(" || strContains funcBody "transferFrom(") then
      if (!strContains funcBody "(bool success" && !strContains funcBody "(bool" &&
          !strContains funcBody "success") ||
         (!strContains funcBody "require(success" && !strContains funcBody "require") then
        match findTransferLine (pyLines funcBody) 0 with
        | some (j, snippet) =>
          if startLine + i + j != 0 then
            [⟨"unchecked_transfer", "High",
              "Solidity function \x27" ++ functionName ++
                "\x27 contains unchecked transfer call. This can lead to silent failures.",
              startLine + i + j, startLine + i + j, snippet,
              "Check the return value using `(bool success, bytes memory returnData) = ...` and verify success with require."⟩]
          else []
        | none => []
      else []
    else []
  else []

/-- Driver loop of `_find_solidity_unchecked_transfers` over the remaining
lines paired with their index. -/
def solLinesGo (startLine : Nat) : List String → Nat → List Issue
  | [], _ => []
  | l :: rest, i =>
    findSolLine startLine i l (l :: rest) ++ solLinesGo startLine rest (i + 1)

/-- `_find_solidity_unchecked_transfers` on one extracted section. -/
def findSolidityUncheckedTransfers (code : String) (startLine : Nat) : List Issue :=
  solLinesGo startLine (pyLines code) 0

/-- The `while` advance of `_find_predefined_unsafe_transfers`: skip lines
until one contains `\x7b`, returning the remaining lines and the index of
the first of them. -/
def advanceToBrace : List String → Nat → List String × Nat
  | [], i => ([], i)
  | l :: rest, i =>
    if strContains l "\x7b" then (l :: rest, i) else advanceToBrace rest (i + 1)

/-- Bounded lookahead of `_find_predefined_unsafe_transfers` for a
`.call(`-plus-transfer line (15-line window), stopping at balanced braces;
`j` is the absolute index of the head of the remaining lines. -/
def predefSearch (startLine : Nat) : Nat → List String → Nat → Int → Option (Nat × String)
  | 0, _, _, _ => none
  | _ + 1, [], _, _ => none
  | window + 1, cur :: rest, j, bc =>
    if strContains cur ".call(" && strContains cur "transfer" then
      some (startLine + j, pyTrim cur)
    else
      let bc2 := bc + (countChar cur '\x7b' : Int) - (countChar cur '\x7d' : Int)
      if bc2 == 0 then none
      else predefSearch startLine window rest (j + 1) bc2

/-- Processing of one known-unsafe wrapper name on one line of
`_find_predefined_unsafe_transfers`; `suffix` holds the lines from index
`i0` on, and the mutated scan position is returned alongside the issue. -/
def predefForFunc (startLine lineIdx : Nat) (line fname : String)
    (suffix : List String) (i0 : Nat) : Option Issue × (List String × Nat) :=
  if strContains line ("function " ++ fname) then
    let funcLine := startLine + lineIdx
    let adv := advanceToBrace suffix i0
    let res :=
      match adv.1 with
      | [] => none
      | brline :: _ =>
        predefSearch startLine 15 adv.1 adv.2 (countChar brline '\x7b' : Int)
    match res with
    | some (callLine, callText) =>
      if callLine != 0 then
        (some ⟨"unchecked_transfer", "High",
          "Solidity function \x27" ++ fname ++ "\x27 (line " ++ toString funcLine ++
            ") uses unchecked transfer call. Return value is not checked.",
          callLine, callLine, callText,
          "Check the return value: `(bool success, bytes memory returnData) = token.call(...); require(success, ...)`"⟩,
         adv)
      else (none, adv)
    | none => (none, adv)
  else (none, (suffix, i0))

/-- One line of `_find_predefined_unsafe_transfers` (both wrapper names, the
second starting from the scan position the first left behind). -/
def predefLine (startLine lineIdx : Nat) (line : String) (suffix : List String) : List Issue :=
  let r1 := predefForFunc startLine lineIdx line "unsafeTransferERC20" suffix lineIdx
  let r2 := predefForFunc startLine lineIdx line "unsafeTransferFromERC20" r1.2.1 r1.2.2
  r1.1.toList ++ r2.1.toList

/-- Driver loop of `_find_predefined_unsafe_transfers`. -/
def predefGo (startLine : Nat) : List String → Nat → List Issue
  | [], _ => []
  | l :: rest, i =>
    predefLine startLine i l (l :: rest) ++ predefGo startLine rest (i + 1)

/-- `_find_predefined_unsafe_transfers` on one extracted section. -/
def findPredefinedTransfers (code : String) (startLine : Nat) : List Issue :=
  predefGo startLine (pyLines code) 0

/-- `_check_solidity_unchecked_transfers`: both section scans over every
extracted `sol!` section, in order. -/
def checkSolidityUncheckedTransfers (code : String) : List Issue :=
  ((extractSolSections code).map (fun s =>
    findSolidityUncheckedTransfers s.code s.start_line ++
    findPredefinedTransfers s.code s.start_line)).flatten

/-- `UncheckedTransferDetector.detect`: the tree pass followed by the
embedded-`sol!` text pass; the result is the ordered list of issues the
detector appends to the sink. -/
def uncheckedDetect (root : RawNode) (code : String) : List Issue :=
  findUnchecked code [] root ++ checkSolidityUncheckedTransfers code

/-- `_is_in_sol_macro`: the node or one of its ancestors is a
`macro_invocation` whose text mentions `sol!`. -/
def isInSolBlock (code : String) (frames : List Frame) (n : RawNode) : Bool :=
  (n.type == "macro_invocation" && strContains (nodeText code n) "sol!") ||
  frames.any (fun f => f.type == "macro_invocation" && strContains (f.text code) "sol!")

/-- `_extract_solidity_function_name`: the text between `function ` and the
next `(`, stripped. -/
def extractSolidityFunctionName (ft : String) : String :=
  if strContains ft "function " then
    match strFind ft "function " with
    | some idx =>
      let start := idx + 9
      match strFindFrom ft "(" start with
      | some endIdx => if start < endIdx then pyTrim (pySlice ft start endIdx) else ""
      | none => ""
    | none => ""
  else ""

/-- `_extract_address_params`: parameter names harvested textually, from the
first parenthesis group (Solidity style) or from `name: Address` lines
(Rust style). -/
def extractAddressParams (ft : String) : List String :=
  if strContains ft "function " && strContains ft "(" then
    match strFind ft "(", strFind ft ")" with
    | some ps, some pe =>
      if ps > 0 && pe > ps then
        ((pySplitCh ',' (pySlice ft (ps + 1) pe)).map pyTrim).filterMap (fun p =>
          if strContains p "address" then some (pyTrim ((pyWords p).getLastD "")) else none)
      else []
    | _, _ => []
  else if strContains ft "fn " && strContains ft "Address" then
    (pyLines ft).filterMap (fun line =>
      if strContains line ":" && strContains line "Address" then
        some (pyTrim ((pySplitCh ':' line).headD ""))
      else none)
  else []

/-- `_extract_function_parameters`: texts of the `parameter` children of the
node's `parameters` children. -/
def extractFunctionParameters (code : String) (n : RawNode) : List String :=
  ((n.children.filter (fun c => c.type == "parameters")).map (fun pl =>
    (pl.children.filter (fun pc => pc.type == "parameter")).map (nodeText code))).flatten

/-- Python `param.split(":")[-1].strip() if ":" in param else param`: the
text after the parameter's last colon (for `to: Address` this is the type
text `Address`, not the name). -/
def paramLastColon (p : String) : String :=
  if strContains p ":" then pyTrim ((pySplitCh ':' p).getLastD "") else p

/-- The transfer-use patterns of `_are_params_used_in_transfers` for one
extracted parameter name. -/
def transferUsePatterns (pname : String) : List String :=
  [".transfer(" ++ pname, ".transfer(" ++ pname ++ ",",
   ".transferFrom(" ++ pname, ".transferFrom(" ++ pname ++ ",",
   "transfer(address,uint256).*" ++ pname,
   "transferFrom(address,address,uint256).*" ++ pname]

/-- `_are_params_used_in_transfers`. -/
def areParamsUsedInTransfers (ft : String) (params : List String) : Bool :=
  params.any (fun p =>
    (transferUsePatterns (paramLastColon p)).any (fun pat => strContains ft pat))

/-- The validation patterns of `_has_address_validation`. -/
def validationPatterns : List String :=
  ["require", "assert", "revert", "== Address::ZERO", "!= Address::ZERO",
   "Address::zero()", "is_zero()", "== 0x0", "!= 0x0"]

/-- `_has_address_validation`: every extracted parameter name must match
some validation pattern. -/
def hasAddressValidation (ft : String) (params : List String) : Bool :=
  params.all (fun p =>
    let pname := paramLastColon p
    validationPatterns.any (fun pat =>
      strContains ft (pname ++ " " ++ pat) || strContains ft (pat ++ "(" ++ pname)))

/-- `_get_function_name` of the Unsafe-Transfer detector. -/
def getFunctionNameU (code : String) (n : RawNode) : String :=
  match n.children.find? (fun c => c.type == "identifier") with
  | some c => nodeText code c
  | none =>
    let ft := nodeText code n
    if strContains ft "function " then extractSolidityFunctionName ft else ""

/-- `_get_function_signature` of the Unsafe-Transfer detector. For a node
outside a `sol!` block the source reads the never-assigned local
`function_text` and raises `UnboundLocalError`; that crash is modelled as
`none`. -/
def getFunctionSignatureU (code : String) (frames : List Frame) (n : RawNode) :
    Option String :=
  if isInSolBlock code frames n then
    let ft := nodeText code n
    let fromSol : Option String :=
      if strContains ft "function " then
        match (pyLines ft).find? (fun l => strContains l "function ") with
        | some l =>
          match strFind l "\x7b" with
          | some k => if k > 0 then some (pyTrim (pyTake l k)) else some (pyTrim l)
          | none => some (pyTrim l)
        | none => none
      else none
    match fromSol with
    | some s => some s
    | none =>
      let fname := getFunctionNameU code n
      if fname != "" then some ("fn " ++ fname ++ "(...)")
      else some ((pyLines (nodeText code n)).headD "")
  else none

/-- The constructor / entry-point / internal name filter of
`_check_function_for_unsafe_transfers`. -/
def skipKeywords : List String := ["constructor", "deploy", "main", "internal"]

/-- `_check_function_for_unsafe_transfers` at one function node: the issues
appended (at most one) and whether the detector crashed while building the
issue (the `Bool` is the raised-exception flag). -/
def checkFunctionForUnsTransfers (code : String) (frames : List Frame) (n : RawNode) :
    List Issue × Bool :=
  let ft := nodeText code n
  let fname := getFunctionNameU code n
  if skipKeywords.any (fun kw => strContains (pyLower fname) kw) then ([], false)
  else if !strContains ft "transfer" && !strContains ft ".call(" then ([], false)
  else
    let params := extractFunctionParameters code n
    let addressParams := params.filter (fun p =>
      strContains p "Address" || strContains p "address")
    if !addressParams.isEmpty && areParamsUsedInTransfers ft addressParams then
      if !hasAddressValidation ft addressParams then
        match getFunctionSignatureU code frames n with
        | some sig =>
          ([⟨"unsafe_transfer", "Medium",
            "Function \x27" ++ fname ++
              "\x27 performs transfers to potentially unvalidated address parameters.",
            n.startRow + 1, n.endRow + 1, sig,
            "Validate address parameters before using them in transfer operations."⟩], false)
        | none => ([], true)
      else ([], false)
    else ([], false)

/-- The `sol!`-block branch of `_find_unsafe_transfers` at one node. -/
def solBranchU (code : String) (frames : List Frame) (n : RawNode) :
    List Issue × Bool :=
  let nt := nodeText code n
  if strContains nt "function " && strContains nt "transfer" then
    let fname := extractSolidityFunctionName nt
    let addresses := extractAddressParams nt
    if !addresses.isEmpty && !hasAddressValidation nt addresses then
      match getFunctionSignatureU code frames n with
      | some sig =>
        ([⟨"unsafe_transfer", "Medium",
          "Function \x27" ++ fname ++
            "\x27 contains transfers to potentially unvalidated addresses.",
          n.startRow + 1, n.endRow + 1, sig,
          "Validate address parameters before using them in transfer operations."⟩], false)
      | none => ([], true)
    else ([], false)
  else ([], false)

/-- Issues emitted at one node by `_find_unsafe_transfers` before recursing
(function check, or `sol!`-block check), with the crash flag. -/
def unsHere (code : String) (frames : List Frame) (n : RawNode) : List Issue × Bool :=
  if n.type == "function_item" || n.type == "function_definition" then
    checkFunctionForUnsTransfers code frames n
  else if isInSolBlock code frames n then
    solBranchU code frames n
  else ([], false)

mutual

/-- `_find_unsafe_transfers`: pre-order traversal; a raised exception (the
crash flag) aborts the rest of the traversal, keeping the issues appended so
far — exactly what the sink observes when `detect` raises. -/
def unsFind (code : String) (frames : List Frame) : RawNode → List Issue × Bool
  | .mk ty sb eb sr er ci cs =>
    let here := unsHere code frames (.mk ty sb eb sr er ci cs)
    if here.2 then here
    else
      let rest := unsFindChildren code ty sb eb sr er ci frames [] cs
      (here.1 ++ rest.1, rest.2)

/-- Child recursion of `_find_unsafe_transfers`. -/
def unsFindChildren (code : String) (ty : String) (sb eb sr er : Nat)
    (ci : Option Nat) (frames : List Frame) (leftRev : List RawNode) :
    List RawNode → List Issue × Bool
  | [] => ([], false)
  | c :: rest =>
    let r := unsFind code
      ({ type := ty, startByte := sb, endByte := eb, startRow := sr, endRow := er,
         condIdx := ci, leftRev := leftRev, right := rest } :: frames) c
    if r.2 then r
    else
      let rr := unsFindChildren code ty sb eb sr er ci frames (c :: leftRev) rest
      (r.1 ++ rr.1, rr.2)

end

/-- `UnsafeTransferDetector.detect`: the ordered issue list appended to the
sink, with the flag recording whether the detector raised (which the runner
records as an `AnalysisError`). -/
def unsDetect (root : RawNode) (code : String) : List Issue × Bool :=
  unsFind code [] root

/-- Concatenate lines, terminating each with a newline (used to state what
the `sol!` extractor accumulates). -/
def joinNl (ls : List String) : String :=
  ls.foldr (fun l acc => l ++ "\n" ++ acc) ""

/-- Shape every Unchecked-Transfer issue must have. -/
def IsUncheckedIssue (i : Issue) : Prop :=
  i.issue_type = "unchecked_transfer" ∧ i.severity = "High"

/-- Shape every Unsafe-Transfer issue must have. -/
def IsUnsafeIssue (i : Issue) : Prop :=
  i.issue_type = "unsafe_transfer" ∧ i.severity = "Medium"

section ConcreteInputs

/-! Concrete sources and trees used as counterexamples and witnesses. Byte
offsets and rows follow the tree-sitter conventions (0-based bytes and
rows); each tree is the concrete syntax tree the external parser would
produce for the source, restricted to the named nodes the detectors
inspect. -/

/-- `fn f() { let _ = token.transfer(to, amt); }` — a discard-bound ERC20
transfer with no IERC20 marker anywhere in the source. -/
def srcDiscardNoIerc : String := "fn f() \x7b let _ = token.transfer(to, amt); \x7d"

def treeDiscardNoIerc : RawNode :=
  .mk "source_file" 0 43 0 0 none
    [.mk "function_item" 0 43 0 0 none
      [.mk "identifier" 3 4 0 0 none [],
       .mk "block" 7 43 0 0 none
         [.mk "let_declaration" 9 41 0 0 none
           [.mk "identifier" 13 14 0 0 none [],
            .mk "call_expression" 17 40 0 0 none []]]]]

/-- Same discard-bound transfer, with an `IERC20` mention before the call. -/
def srcDiscardIerc : String :=
  "IERC20\nfn g() \x7b let _ = token.transfer(to, amt); \x7d"

def treeDiscardIerc : RawNode :=
  .mk "source_file" 0 50 0 1 none
    [.mk "function_item" 7 50 1 1 none
      [.mk "identifier" 10 11 1 1 none [],
       .mk "block" 14 50 1 1 none
         [.mk "let_declaration" 16 48 1 1 none
           [.mk "identifier" 20 21 1 1 none [],
            .mk "call_expression" 24 47 1 1 none []]]]]

/-- `if x && token.transfer(to) { }` — the transfer call's nearest
qualifying ancestor is a binary expression, in IERC20 context. -/
def srcIfBinary : String :=
  "// IERC20\nfn f() \x7b if x && token.transfer(to) \x7b \x7d \x7d"

def treeIfBinary : RawNode :=
  .mk "source_file" 0 51 0 1 none
    [.mk "line_comment" 0 9 0 0 none [],
     .mk "function_item" 10 51 1 1 none
      [.mk "identifier" 13 14 1 1 none [],
       .mk "block" 17 51 1 1 none
         [.mk "expression_statement" 19 49 1 1 none
           [.mk "if_expression" 19 49 1 1 (some 0)
             [.mk "binary_expression" 22 45 1 1 none
               [.mk "identifier" 22 23 1 1 none [],
                .mk "call_expression" 27 45 1 1 none []],
              .mk "block" 46 49 1 1 none []]]]]]

/-- `if token.transfer(to) { }` — the transfer call is itself the `if`
condition. -/
def srcIfDirect : String := "fn f() \x7b if token.transfer(to) \x7b \x7d \x7d"

def treeIfDirect : RawNode :=
  .mk "source_file" 0 36 0 0 none
    [.mk "function_item" 0 36 0 0 none
      [.mk "identifier" 3 4 0 0 none [],
       .mk "block" 7 36 0 0 none
         [.mk "expression_statement" 9 34 0 0 none
           [.mk "if_expression" 9 34 0 0 (some 0)
             [.mk "call_expression" 12 30 0 0 none [],
              .mk "block" 31 34 0 0 none []]]]]]

/-- `fn g(to: Address) { token.transfer(a + b, amt); }` — the transfer
recipient is a binary expression. -/
def srcBinaryRecipient : String :=
  "fn g(to: Address) \x7b token.transfer(a + b, amt); \x7d"

def treeBinaryRecipient : RawNode :=
  .mk "source_file" 0 49 0 0 none
    [.mk "function_item" 0 49 0 0 none
      [.mk "identifier" 3 4 0 0 none [],
       .mk "parameters" 4 17 0 0 none
         [.mk "parameter" 5 16 0 0 none []],
       .mk "block" 18 49 0 0 none
         [.mk "expression_statement" 20 47 0 0 none
           [.mk "call_expression" 20 46 0 0 none
             [.mk "field_expression" 20 34 0 0 none [],
              .mk "arguments" 34 46 0 0 none
                [.mk "binary_expression" 35 40 0 0 none [],
                 .mk "identifier" 42 45 0 0 none []]]]]]]

/-- `fn main_entry(to: Address) { token.transfer(Address::new(to), amt); }`
— an entry-point-named function with an unvalidated address parameter. -/
def srcMainEntry : String :=
  "fn main_entry(to: Address) \x7b token.transfer(Address::new(to), amt); \x7d"

def fnNodeMainEntry : RawNode :=
  .mk "function_item" 0 69 0 0 none
    [.mk "identifier" 3 13 0 0 none [],
     .mk "parameters" 13 26 0 0 none
       [.mk "parameter" 14 25 0 0 none []],
     .mk "block" 27 69 0 0 none []]

/-- A match on a transfer result whose `Err` arm has an empty body. -/
def srcMatchIgnore : String :=
  "fn f() \x7b match transfer_result \x7b Err(e) => \x7b\x7d, Ok(v) => () \x7d \x7d"

/-- The tree-sitter-rust parse of `srcMatchIgnore`: the match arms are not
direct children of the `match_expression` but are nested inside its
`match_block` child (`match_expression` → value, `match_block` →
`match_arm`s). -/
def treeMatchIgnore : RawNode :=
  .mk "source_file" 0 62 0 0 none
    [.mk "function_item" 0 62 0 0 none
      [.mk "identifier" 3 4 0 0 none [],
       .mk "block" 7 62 0 0 none
         [.mk "match_expression" 9 60 0 0 none
           [.mk "identifier" 15 30 0 0 none [],
            .mk "match_block" 31 60 0 0 none
              [.mk "match_arm" 33 45 0 0 none [],
               .mk "match_arm" 47 58 0 0 none []]]]]]

/-- A match on a transfer result whose `Err` arm returns the error. -/
def srcMatchReturn : String :=
  "fn f() \x7b match transfer_result \x7b Err(e) => return Err(e), Ok(v) => () \x7d \x7d"

/-- The tree-sitter-rust parse of `srcMatchReturn`, with the arms nested
inside the `match_block` child as the grammar produces them. -/
def treeMatchReturn : RawNode :=
  .mk "source_file" 0 73 0 0 none
    [.mk "function_item" 0 73 0 0 none
      [.mk "identifier" 3 4 0 0 none [],
       .mk "block" 7 73 0 0 none
         [.mk "match_expression" 9 71 0 0 none
           [.mk "identifier" 15 30 0 0 none [],
            .mk "match_block" 31 71 0 0 none
              [.mk "match_arm" 33 56 0 0 none [],
               .mk "match_arm" 58 69 0 0 none []]]]]]

/-- A well-formed one-line `sol!` block. -/
def srcSolSimple : String := "sol! \x7b\nfunction x\n\x7d"

/-- A `sol!` block whose function declares `(bool success, ...)` but never
calls `require`. -/
def srcSolBoolNoRequire : String :=
  "sol! \x7b\n    function transferOut(address token) public \x7b\n        (bool success, ) = token.call(sig_transfer(to));\n    \x7d\n\x7d\n"

/-- A truncated source whose `sol!` block is never closed. -/
def srcSolUnterminated : String :=
  "fn main() \x7b\nsol! \x7b\n    function transferAll(address to) \x7b"

/-- Tree-sitter represents the unterminated source of `srcSolUnterminated`
as an error node; only its extent matters to the detectors. -/
def treeSolUnterminated : RawNode :=
  .mk "source_file" 0 57 0 2 none [.mk "ERROR" 0 57 0 2 none []]

/-- Source of the C10 witness: a bare unchecked ERC20 transfer statement in
IERC20 context. -/
def srcBareTransfer : String :=
  "IERC20\nfn h() \x7b token.transfer(to, amt); \x7d"

def treeBareTransfer : RawNode :=
  .mk "source_file" 0 42 0 1 none
    [.mk "function_item" 7 42 1 1 none
      [.mk "identifier" 10 11 1 1 none [],
       .mk "block" 14 42 1 1 none
         [.mk "expression_statement" 16 40 1 1 none
           [.mk "call_expression" 16 39 1 1 none []]]]]

/-- A one-line `sol!` block declaring a function with an unvalidated
address parameter used in its body. -/
def srcSolWrap : String :=
  "sol! \x7b function transferTo(address to) \x7b to.send; \x7d \x7d"

def treeSolWrap : RawNode :=
  .mk "source_file" 0 53 0 0 none
    [.mk "macro_invocation" 0 53 0 0 none []]

end ConcreteInputs

section StringLemmas

theorem subIdx_isSome_iff (hay pat : List Char) :
    (subIdx hay pat).isSome = true ↔ pat <:+: hay := by
  induction hay with
  | nil =>
    by_cases h : pat.isEmpty
    · simp [subIdx, h, List.isEmpty_iff.mp h]
    · simp [subIdx, h, List.infix_nil, List.isEmpty_iff.not.mp h]
  | cons x t ih =>
    by_cases h : (x :: t).take pat.length == pat
    · have hp : pat <+: x :: t := by
        rw [List.prefix_iff_eq_take]
        exact ((beq_iff_eq).mp h).symm
      simp [subIdx, h, hp.isInfix]
    · have hp : ¬ pat <+: x :: t := by
        rw [List.prefix_iff_eq_take]
        intro he
        exact h ((beq_iff_eq).mpr he.symm)
      simp [subIdx, h, List.infix_cons_iff, hp, ih]

theorem strContains_iff (s pat : String) :
    strContains s pat = true ↔ pat.toList <:+: s.toList := by
  unfold strContains
  exact subIdx_isSome_iff _ _

theorem toList_append (a b : String) : (a ++ b).toList = a.toList ++ b.toList := by
  cases a; cases b; rfl

theorem strContains_append_right (a b pat : String) (h : strContains b pat = true) :
    strContains (a ++ b) pat = true := by
  rw [strContains_iff] at h ⊢
  rw [toList_append]
  exact h.trans (List.suffix_append a.toList b.toList).isInfix

theorem strContains_append_left (a b pat : String) (h : strContains a pat = true) :
    strContains (a ++ b) pat = true := by
  rw [strContains_iff] at h ⊢
  rw [toList_append]
  exact h.trans (List.prefix_append a.toList b.toList).isInfix

theorem singleton_infix_iff_mem (x : Char) (l : List Char) : [x] <:+: l ↔ x ∈ l := by
  constructor
  · rintro ⟨s, t, rfl⟩
    simp
  · intro hm
    obtain ⟨s, t, rfl⟩ := List.append_of_mem hm
    exact ⟨s, t, by simp⟩

theorem splitCh_ne_nil (c : Char) (l : List Char) : splitCh c l ≠ [] := by
  induction l with
  | nil => simp [splitCh]
  | cons x xs ih =>
    by_cases h : x == c
    · simp [splitCh, h]
    · simp only [splitCh, h]
      cases hs : splitCh c xs <;> simp

theorem splitCh_no_sep (c : Char) (l : List Char) (h : ∀ x ∈ l, ¬(x = c)) :
    splitCh c l = [l] := by
  induction l with
  | nil => rfl
  | cons x xs ih =>
    have hx : (x == c) = false := by
      simp [h x (List.mem_cons_self x xs)]
    simp only [splitCh, hx, Bool.false_eq_true, if_false]
    rw [ih (fun y hy => h y (List.mem_cons_of_mem x hy))]

theorem splitCh_append_sep (c : Char) (l₁ l₂ : List Char) (h : ∀ x ∈ l₁, ¬(x = c)) :
    splitCh c (l₁ ++ c :: l₂) = l₁ :: splitCh c l₂ := by
  induction l₁ with
  | nil => simp [splitCh]
  | cons x xs ih =>
    have hx : (x == c) = false := by
      simp [h x (List.mem_cons_self x xs)]
    have ih2 := ih (fun y hy => h y (List.mem_cons_of_mem x hy))
    simp only [List.cons_append, splitCh, hx, Bool.false_eq_true, if_false]
    rw [show xs.append (c :: l₂) = xs ++ c :: l₂ from rfl, ih2]

theorem not_mem_of_not_strContains (a : String) (x : Char)
    (h : strContains a (String.mk [x]) = false) : ∀ y ∈ a.toList, ¬(y = x) := by
  intro y hy he
  subst he
  have : strContains a (String.mk [y]) = true := by
    rw [strContains_iff]
    exact (singleton_infix_iff_mem y a.toList).mpr hy
  rw [h] at this
  exact Bool.false_ne_true this

theorem mk_toList (s : String) : String.mk s.toList = s := by
  cases s; rfl

theorem pyLines_append (a b : String) (h : strContains a "\n" = false) :
    pyLines (a ++ ("\n" ++ b)) = a :: pyLines b := by
  unfold pyLines pySplitCh
  rw [toList_append, toList_append]
  have : ("\n" : String).toList = ['\n'] := rfl
  rw [this]
  simp only [List.singleton_append]
  rw [splitCh_append_sep '\n' a.toList b.toList (not_mem_of_not_strContains a '\n' h)]
  simp [mk_toList]

theorem pyLines_terminal (a : String) (h : strContains a "\n" = false) :
    pyLines (a ++ "\n") = [a, ""] := by
  unfold pyLines pySplitCh
  rw [toList_append]
  have : ("\n" : String).toList = ['\n'] := rfl
  rw [this, show a.toList ++ ['\n'] = a.toList ++ '\n' :: [] from rfl]
  rw [splitCh_append_sep '\n' a.toList [] (not_mem_of_not_strContains a '\n' h)]
  simp [mk_toList, splitCh]

end StringLemmas

section ExtractLemmas

theorem extractGo_all_skip : ∀ (lines : List String) (i : Nat),
    (∀ l ∈ lines, strContains l "sol! \x7b" = false) →
    extractGo lines i none = [] := by
  intro lines
  induction lines with
  | nil => intro i _; rfl
  | cons l rest ih =>
    intro i h
    have hl := h l (List.mem_cons_self l rest)
    simp only [extractGo, hl, Bool.false_eq_true, if_false]
    exact ih (i + 1) (fun y hy => h y (List.mem_cons_of_mem l hy))

theorem extractGo_pre_skip : ∀ (pre rest : List String) (i : Nat),
    (∀ l ∈ pre, strContains l "sol! \x7b" = false) →
    extractGo (pre ++ rest) i none = extractGo rest (i + pre.length) none := by
  intro pre
  induction pre with
  | nil => intro rest i _; rfl
  | cons l pre ih =>
    intro rest i h
    have hl := h l (List.mem_cons_self l pre)
    simp only [List.cons_append, extractGo, hl, Bool.false_eq_true, if_false, List.append_eq]
    rw [ih rest (i + 1) (fun y hy => h y (List.mem_cons_of_mem l hy))]
    congr 1
    simp only [List.length_cons]
    omega

theorem extractGo_open_nil : ∀ (tail : List String) (i sl : Nat) (acc : String),
    (∀ l ∈ tail, strContains l "sol! \x7b" = false ∧ isClosingLine l = false) →
    extractGo tail i (some (sl, acc)) = [] := by
  intro tail
  induction tail with
  | nil => intro i sl acc _; rfl
  | cons l rest ih =>
    intro i sl acc h
    have hl := h l (List.mem_cons_self l rest)
    simp only [extractGo, hl.1, Bool.false_eq_true, if_false, hl.2]
    exact ih (i + 1) sl _ (fun y hy => h y (List.mem_cons_of_mem l hy))

theorem extractGo_body_acc : ∀ (body : List String) (closer : String) (rest : List String)
    (i sl : Nat) (acc : String),
    (∀ l ∈ body, strContains l "sol! \x7b" = false ∧ isClosingLine l = false) →
    strContains closer "sol! \x7b" = false → isClosingLine closer = true →
    extractGo (body ++ closer :: rest) i (some (sl, acc)) =
      ⟨acc ++ joinNl body ++ (closer ++ "\n"), sl⟩ ::
        extractGo rest (i + body.length + 1) none := by
  intro body
  induction body with
  | nil =>
    intro closer rest i sl acc _ hc1 hc2
    simp only [List.nil_append, extractGo, hc1, Bool.false_eq_true, if_false, hc2,
      if_true, joinNl, List.foldr_nil, List.length_nil]
    simp [String.append_assoc]
  | cons l body ih =>
    intro closer rest i sl acc h hc1 hc2
    have hl := h l (List.mem_cons_self l body)
    simp only [List.cons_append, extractGo, hl.1, Bool.false_eq_true, if_false, hl.2,
      List.append_eq]
    rw [ih closer rest (i + 1) sl ((acc ++ l) ++ "\n")
      (fun y hy => h y (List.mem_cons_of_mem l hy)) hc1 hc2]
    have hn : i + 1 + body.length + 1 = i + (l :: body).length + 1 := by
      simp only [List.length_cons]; omega
    rw [hn]
    simp only [joinNl, List.foldr_cons]
    simp [String.append_assoc]

theorem checkSol_of_no_marker (code : String)
    (h : ∀ l ∈ pyLines code, strContains l "sol! \x7b" = false) :
    checkSolidityUncheckedTransfers code = [] := by
  unfold checkSolidityUncheckedTransfers extractSolSections
  rw [extractGo_all_skip _ 0 h]
  rfl

end ExtractLemmas

section ClaimC5

/-- C5, counterexample. For the well-formed embedded block of
`srcSolSimple` (`sol! {` on line 1, `function x` on line 2, `}` on line 3),
the extracted section's `start_line` is 1 — the 1-based number of the
opening marker line, not of the first line after it (which is 2) — and its
text also includes the closing-brace line, so it is not the between-lines
text `"function x\n"`. This refutes the claim as stated. -/
theorem c5_counterexample :
    (extractSolSections srcSolSimple).map SolSection.start_line = [1] ∧
    (extractSolSections srcSolSimple).map SolSection.code = ["function x\n\x7d\n"] := by
  decide

/-- C5, amended. For every source containing an embedded block bounded by a
well-formed opening marker line and closing-brace line, the extraction
returns a section whose text reproduces verbatim the original lines
strictly after the marker up to and including the closing-brace line (each
followed by a newline), and whose `start_line` equals the 1-based number of
the opening marker line itself (one less than the first line after it). -/
theorem c5_amended (code : String) (pre body post : List String) (marker closer : String)
    (hsplit : pyLines code = pre ++ marker :: (body ++ closer :: post))
    (hpre : ∀ l ∈ pre, strContains l "sol! \x7b" = false)
    (hm : strContains marker "sol! \x7b" = true)
    (hbody : ∀ l ∈ body, strContains l "sol! \x7b" = false ∧ isClosingLine l = false)
    (hc1 : strContains closer "sol! \x7b" = false)
    (hc2 : isClosingLine closer = true) :
    extractSolSections code =
      ⟨joinNl body ++ (closer ++ "\n"), pre.length + 1⟩ ::
        extractGo post (pre.length + body.length + 2) none := by
  unfold extractSolSections
  rw [hsplit, extractGo_pre_skip pre _ 0 hpre]
  rw [show extractGo (marker :: (body ++ closer :: post)) (0 + pre.length) none =
      extractGo (body ++ closer :: post) (0 + pre.length + 1)
        (some (0 + pre.length + 1, "")) from by
    simp [extractGo, hm]]
  rw [extractGo_body_acc body closer post _ _ "" hbody hc1 hc2]
  have h1 : 0 + pre.length + 1 = pre.length + 1 := by omega
  rw [h1]
  have h2 : pre.length + 1 + body.length + 1 = pre.length + body.length + 2 := by omega
  rw [h2]
  rw [String.empty_append]

/-- Witness for `c5_amended` at a concrete two-line block followed by
trailing text. -/
theorem c5_amended_witness :
    extractSolSections "sol! \x7b\nfn transferA\nbody line\n\x7d\nrest" =
      [⟨joinNl ["fn transferA", "body line"] ++ ("\x7d" ++ "\n"), 1⟩] := by
  rw [c5_amended "sol! \x7b\nfn transferA\nbody line\n\x7d\nrest" [] ["fn transferA", "body line"]
    ["rest"] "sol! \x7b" "\x7d" (by decide) (by decide) (by decide) (by decide) (by decide)
    (by decide)]
  decide

end ClaimC5

section ClaimC7

/-- C7. For every source whose embedded `sol!` block is malformed or
partial — an opening marker line after which no qualifying closing-brace
line occurs before end of input — the Unchecked-Transfer detector's
embedded-block pass extracts no section and adds no issue, and the
Unsafe-Transfer detector (for which the unrecognized, unterminated block
surfaces in the tree only as an error node matching no rule) adds no issue
and raises no exception: the malformed text is silently skipped, with
nothing recorded in the sink. -/
theorem c7_malformed_block_silent (code : String) (pre tail : List String) (marker : String)
    (a b c d e f g h : Nat)
    (hsplit : pyLines code = pre ++ marker :: tail)
    (hpre : ∀ l ∈ pre, strContains l "sol! \x7b" = false)
    (hm : strContains marker "sol! \x7b" = true)
    (htail : ∀ l ∈ tail, strContains l "sol! \x7b" = false ∧ isClosingLine l = false) :
    uncheckedDetect (.mk "source_file" a b c d none [.mk "ERROR" e f g h none []]) code = []
    ∧ unsDetect (.mk "source_file" a b c d none [.mk "ERROR" e f g h none []]) code
        = ([], false) := by
  constructor
  · show findUnchecked code [] _ ++ checkSolidityUncheckedTransfers code = []
    rw [show findUnchecked code []
        (.mk "source_file" a b c d none [.mk "ERROR" e f g h none []]) = [] from rfl]
    rw [List.nil_append]
    unfold checkSolidityUncheckedTransfers extractSolSections
    rw [hsplit, extractGo_pre_skip pre _ 0 hpre]
    rw [show extractGo (marker :: tail) (0 + pre.length) none =
        extractGo tail (0 + pre.length + 1) (some (0 + pre.length + 1, "")) from by
      simp [extractGo, hm]]
    rw [extractGo_open_nil tail _ _ _ htail]
    rfl
  · rfl

/-- Witness for `c7_malformed_block_silent` at the concrete truncated
source `srcSolUnterminated`. -/
theorem c7_witness :
    uncheckedDetect treeSolUnterminated srcSolUnterminated = []
    ∧ unsDetect treeSolUnterminated srcSolUnterminated = ([], false) :=
  c7_malformed_block_silent srcSolUnterminated ["fn main() \x7b"]
    ["    function transferAll(address to) \x7b"] "sol! \x7b"
    0 57 0 2 0 57 0 2 (by decide) (by decide) (by decide) (by decide)

end ClaimC7

/-- The tree of a source whose only statement is a discard-bound transfer
call: `fn NAME() { let _ = CALLEE.transfer(...); }`, with the node byte
ranges as parameters (rows are 0 except the call's). -/
def discardLetTree (reb fsb feb nsb neb bsb beb lsb leb isb ieb csb ceb csr cer : Nat) :
    RawNode :=
  .mk "source_file" 0 reb 0 0 none
    [.mk "function_item" fsb feb 0 0 none
      [.mk "identifier" nsb neb 0 0 none [],
       .mk "block" bsb beb 0 0 none
         [.mk "let_declaration" lsb leb 0 0 none
           [.mk "identifier" isb ieb 0 0 none [],
            .mk "call_expression" csb ceb csr cer none []]]]]

section ClaimC1

/-- C1, counterexample. In `srcDiscardNoIerc` the transfer call is bound
with the discard pattern (`let _ = token.transfer(to, amt);`), yet the
detector reports no issue at all, because `_is_token_interface_call`
additionally requires an `IERC20` mention in the enclosing function or in
the code before the call. The claim's "no precondition other than the
discard binding itself" is therefore false. -/
theorem c1_counterexample : uncheckedDetect treeDiscardNoIerc srcDiscardNoIerc = [] := by
  decide

/-- C1, amended. For every source in which a transfer-like call
(text containing `.transfer(`) is bound with the discard pattern
(`let _ = ...`, with a let text mentioning `.transfer`), and which carries
the token-interface marker (`IERC20` occurs in the enclosing function's
text), the detector reports exactly one issue with issue type
`unchecked_transfer` and severity High whose line range is the call's
1-based line range; without the `IERC20` marker no issue is reported
(counterexample). -/
theorem c1_amended (code : String)
    (reb fsb feb nsb neb bsb beb lsb leb isb ieb csb ceb csr cer : Nat)
    (h1 : strContains (pySlice code csb ceb) ".transfer(" = true)
    (h2 : strContains (pySlice code fsb feb) "IERC20" = true ∨
          strContains (pyTake code csb) "IERC20" = true)
    (h3 : strContains (pySlice code lsb leb) ".transfer" = true)
    (h4 : pySlice code isb ieb = "_")
    (h5 : ∀ l ∈ pyLines code, strContains l "sol! \x7b" = false) :
    uncheckedDetect (discardLetTree reb fsb feb nsb neb bsb beb lsb leb isb ieb csb ceb csr cer)
        code =
      [⟨"unchecked_transfer", "High",
        "ERC20 transfer call with unchecked return value. This can lead to silent failures.",
        csr + 1, cer + 1, pySlice code csb ceb,
        "Check the boolean return value of transfer calls (e.g., `if !success \x7b revert \x7d`)."⟩] := by
  unfold uncheckedDetect
  rw [checkSol_of_no_marker code h5]
  rw [List.append_nil]
  simp only [discardLetTree, findUnchecked, findUncheckedChildren, uncheckedHere,
    RawNode.type, RawNode.startByte, RawNode.endByte, RawNode.startRow, RawNode.endRow,
    RawNode.condIdx, RawNode.children, nodeText, isTokenInterfaceCall, findParentFunction,
    List.find?, Frame.text, isReturnValueChecked, Frame.plug, rvLoop, rvStep,
    letBindingChecked, siblingsAfter, h1, h3, h4]
  have h4x : nodeText code (.mk "identifier" isb ieb 0 0 none []) = "_" := by
    simp [nodeText, RawNode.startByte, RawNode.endByte, h4]
  simp [h1, h4x]
  intro hno
  rcases h2 with h2 | h2
  · rw [h2] at hno
    exact absurd hno (by simp)
  · exact h2

/-- Witness for `c1_amended` at the concrete source `srcDiscardIerc`. -/
theorem c1_amended_witness :
    uncheckedDetect (discardLetTree 50 7 50 10 11 14 50 16 48 20 21 24 47 1 1)
        srcDiscardIerc =
      [⟨"unchecked_transfer", "High",
        "ERC20 transfer call with unchecked return value. This can lead to silent failures.",
        2, 2, pySlice srcDiscardIerc 24 47,
        "Check the boolean return value of transfer calls (e.g., `if !success \x7b revert \x7d`)."⟩] :=
  c1_amended srcDiscardIerc 50 7 50 10 11 14 50 16 48 20 21 24 47 1 1
    (by decide) (Or.inr (by decide)) (by decide) (by decide) (by decide)

end ClaimC1

/-- The tree of a source whose only statement is an `if` whose condition is
a single call: `fn NAME() { if CALLEE.transfer(...) { } }`, with node byte
ranges as parameters; the `if_expression`'s `condition` field is its child
at index 0 (the call). -/
def ifCondTree (reb fsb feb nsb neb bsb beb esb eeb ifsb ifeb csb ceb csr cer absb abeb : Nat) :
    RawNode :=
  .mk "source_file" 0 reb 0 0 none
    [.mk "function_item" fsb feb 0 0 none
      [.mk "identifier" nsb neb 0 0 none [],
       .mk "block" bsb beb 0 0 none
         [.mk "expression_statement" esb eeb 0 0 none
           [.mk "if_expression" ifsb ifeb 0 0 (some 0)
             [.mk "call_expression" csb ceb csr cer none [],
              .mk "block" absb abeb 0 0 none []]]]]]

section ClaimC2

/-- C2, counterexample. In `srcIfBinary` the transfer call's nearest
qualifying ancestor is a `binary_expression` (`x && token.transfer(to)`
inside an `if` condition), which the claim says makes the call checked with
no issue reported; the detector nevertheless reports an issue for the call,
because the upward walk of `_is_return_value_checked` has no binary- or
match-expression case and only recognizes the call being the `if`'s own
condition child. -/
theorem c2_counterexample :
    uncheckedDetect treeIfBinary srcIfBinary =
      [⟨"unchecked_transfer", "High",
        "ERC20 transfer call with unchecked return value. This can lead to silent failures.",
        2, 2, "token.transfer(to)",
        "Check the boolean return value of transfer calls (e.g., `if !success \x7b revert \x7d`)."⟩] := by
  decide

/-- C2, amended. A transfer-like call is classified checked — and no issue
is reported for it — when the call is itself the `condition`-field child of
its immediate `if_expression` parent. A conditional or binary expression
merely occurring as a higher ancestor does not make the call checked (see
the counterexample, where a `binary_expression` ancestor still yields an
issue). -/
theorem c2_amended (code : String)
    (reb fsb feb nsb neb bsb beb esb eeb ifsb ifeb csb ceb csr cer absb abeb : Nat)
    (h1 : strContains (pySlice code csb ceb) ".transfer(" = true)
    (h5 : ∀ l ∈ pyLines code, strContains l "sol! \x7b" = false) :
    uncheckedDetect
      (ifCondTree reb fsb feb nsb neb bsb beb esb eeb ifsb ifeb csb ceb csr cer absb abeb)
      code = [] := by
  unfold uncheckedDetect
  rw [checkSol_of_no_marker code h5]
  rw [List.append_nil]
  simp only [ifCondTree, findUnchecked, findUncheckedChildren, uncheckedHere,
    RawNode.type, RawNode.startByte, RawNode.endByte, RawNode.startRow, RawNode.endRow,
    RawNode.condIdx, RawNode.children, nodeText, isReturnValueChecked, Frame.plug,
    rvLoop, rvStep, h1]
  simp

/-- Witness for `c2_amended` at the concrete source `srcIfDirect`. -/
theorem c2_amended_witness :
    uncheckedDetect (ifCondTree 36 0 36 3 4 7 36 9 34 9 34 12 30 0 0 31 34)
      srcIfDirect = [] :=
  c2_amended srcIfDirect 36 0 36 3 4 7 36 9 34 9 34 12 30 0 0 31 34
    (by decide) (by decide)

end ClaimC2

section ClaimC4

/-- C4, code bug. The claim (and the spec's Scenario 5) states the evident
intent of `_is_transfer_error_ignored`: a `match` on a transfer result with
an empty `Err` arm should yield one High issue, and an `Err` arm that
returns should yield none. The code cannot deliver the first half: it scans
`node.children` of the `match_expression` for `match_arm` nodes, but the
repository's grammar (tree-sitter-rust, built by `build_parser.py`) nests
the arms inside a `match_block` child, so the scan never finds an arm,
always returns False, and no match issue is ever reported. Evaluated on the
faithful parses: the `Err(e) => \x7b\x7d` source of `srcMatchIgnore`, which
the claim requires to be flagged, produces no issue — and the
`Err(e) => return Err(e)` source of `srcMatchReturn` (vacuously) produces
none either. -/
theorem c4_match_arms_unreachable :
    uncheckedDetect treeMatchIgnore srcMatchIgnore = []
    ∧ uncheckedDetect treeMatchReturn srcMatchReturn = [] := by
  constructor <;> decide

end ClaimC4

/-- The tree of a function whose single statement is a transfer whose
recipient argument is a binary expression:
`fn NAME(PARAM) { CALLEE.transfer(R1 + R2, amt); }`, with node byte ranges
as parameters. -/
def binaryRecipTree (reb fsb feb nsb neb psb peb prsb preb bsb beb esb eeb csb ceb
    fesb feeb asb aeb b1sb b1eb b2sb b2eb : Nat) : RawNode :=
  .mk "source_file" 0 reb 0 0 none
    [.mk "function_item" fsb feb 0 0 none
      [.mk "identifier" nsb neb 0 0 none [],
       .mk "parameters" psb peb 0 0 none
         [.mk "parameter" prsb preb 0 0 none []],
       .mk "block" bsb beb 0 0 none
         [.mk "expression_statement" esb eeb 0 0 none
           [.mk "call_expression" csb ceb 0 0 none
             [.mk "field_expression" fesb feeb 0 0 none [],
              .mk "arguments" asb aeb 0 0 none
                [.mk "binary_expression" b1sb b1eb 0 0 none [],
                 .mk "identifier" b2sb b2eb 0 0 none []]]]]]]

section ClaimC3

/-- C3, counterexample. In `srcBinaryRecipient` the transfer's recipient
argument is the binary expression `a + b`, which the claim says is always
flagged unsafe; the detector reports nothing (and raises nothing), because
its only recipient heuristic is the textual pattern
`.transfer(<text after the parameter's colon>` — here `.transfer(Address` —
which the binary recipient does not match. -/
theorem c3_counterexample :
    unsDetect treeBinaryRecipient srcBinaryRecipient = ([], false) := by
  decide

/-- C3, amended. A binary-expression (or nested-call) recipient is not
conservatively flagged: the detector never inspects the recipient
expression's shape. A function with an Address-typed parameter whose
transfer uses a binary-expression recipient is flagged only when the
parameter-pattern heuristic `_are_params_used_in_transfers` matches the
function text; when it does not match, no issue is reported and nothing is
raised. -/
theorem c3_amended (code : String)
    (reb fsb feb nsb neb psb peb prsb preb bsb beb esb eeb csb ceb
      fesb feeb asb aeb b1sb b1eb b2sb b2eb : Nat)
    (hname : pySlice code nsb neb = "g")
    (hparam : pySlice code prsb preb = "to: Address")
    (htr : strContains (pySlice code fsb feb) "transfer" = true)
    (hused : areParamsUsedInTransfers (pySlice code fsb feb) ["to: Address"] = false) :
    unsDetect (binaryRecipTree reb fsb feb nsb neb psb peb prsb preb bsb beb esb eeb
      csb ceb fesb feeb asb aeb b1sb b1eb b2sb b2eb) code = ([], false) := by
  have hskip : (skipKeywords.any fun kw => strContains (pyLower "g") kw) = false := by decide
  have haddr : (strContains "to: Address" "Address" || strContains "to: Address" "address")
      = true := by decide
  simp only [unsDetect, binaryRecipTree, unsFind, unsFindChildren, unsHere,
    checkFunctionForUnsTransfers, getFunctionNameU, extractFunctionParameters,
    isInSolBlock, RawNode.type, RawNode.startByte, RawNode.endByte, RawNode.startRow,
    RawNode.endRow, RawNode.condIdx, RawNode.children, nodeText, hname, hparam, htr,
    hused, hskip]
  have hparamx : nodeText code (.mk "parameter" prsb preb 0 0 none []) = "to: Address" := by
    simp [nodeText, RawNode.startByte, RawNode.endByte, hparam]
  have hfilter : List.filter (fun p => strContains p "Address" || strContains p "address")
      ["to: Address"] = ["to: Address"] := by decide
  simp [hparamx, hfilter, hused]

/-- Witness for `c3_amended` at the concrete source `srcBinaryRecipient`. -/
theorem c3_amended_witness :
    unsDetect (binaryRecipTree 49 0 49 3 4 4 17 5 16 18 49 20 47 20 46 20 34 34 46
      35 40 42 45) srcBinaryRecipient = ([], false) :=
  c3_amended srcBinaryRecipient 49 0 49 3 4 4 17 5 16 18 49 20 47 20 46 20 34 34 46
    35 40 42 45 (by decide) (by decide) (by decide) (by decide)

end ClaimC3

section ClaimC8

/-- C8. Each detector is a pure function of `(tree, sourceText)`: appending
a second run of the same detector on the same inputs to the sink appends a
sequence identical to the first run's, element for element and in order
(the segment a run contributes is always `uncheckedDetect t code`,
respectively `(unsDetect t code).1`). -/
theorem c8_detectors_deterministic (t : RawNode) (code : String) (sink : List Issue) :
    ((sink ++ uncheckedDetect t code) ++ uncheckedDetect t code).drop
        (sink ++ uncheckedDetect t code).length =
      (sink ++ uncheckedDetect t code).drop sink.length
    ∧ ((sink ++ (unsDetect t code).1) ++ (unsDetect t code).1).drop
        (sink ++ (unsDetect t code).1).length =
      (sink ++ (unsDetect t code).1).drop sink.length := by
  constructor <;> simp [List.drop_left]

end ClaimC8

section ClaimC9

/-- C9. For every function node whose recovered name contains (after
lowercasing) one of `constructor`, `deploy`, `main`, `internal` as a
substring, the Unsafe-Transfer detector's primary-language per-function
check returns early: no issue is appended and nothing is raised, regardless
of the function's parameters, transfers, or absence of validation. -/
theorem c9_entry_point_functions_skipped (code : String) (frames : List Frame)
    (n : RawNode)
    (h : (skipKeywords.any fun kw =>
        strContains (pyLower (getFunctionNameU code n)) kw) = true) :
    checkFunctionForUnsTransfers code frames n = ([], false) := by
  simp only [checkFunctionForUnsTransfers, h]
  simp

/-- Witness for `c9_entry_point_functions_skipped` at the concrete function
`fn main_entry(to: Address) { token.transfer(Address::new(to), amt); }`,
which would otherwise be flagged. -/
theorem c9_witness :
    checkFunctionForUnsTransfers srcMainEntry [] fnNodeMainEntry = ([], false) :=
  c9_entry_point_functions_skipped srcMainEntry [] fnNodeMainEntry (by decide)

end ClaimC9

/-- A one-function embedded section in which the presence of a
success-boolean declaration (`s`) and of a `require` guard (`r`) are
toggled independently; the transfer-shaped `.call(` line is always the
second line of the section. -/
def c6Section (s r : Bool) : String :=
  "function transferOut() public \x7b\n" ++
  (if s then "    (bool success, ) = token.call(transfer(a));\n"
   else "    token.call(transfer(a));\n") ++
  (if r then "    require(ok);\n" else "    other();\n") ++
  "\x7d"

section ClaimC6

/-- C6, counterexample. The `sol!` block of `srcSolBoolNoRequire` declares
`(bool success, )` for its transfer call — a success-boolean declaration —
but has no `require`; the claim says a body with the declaration is not
reported, yet the pass reports one High issue, because the source's
condition is a disjunction (missing declaration OR missing guard), not the
claimed conjunction. -/
theorem c6_counterexample :
    checkSolidityUncheckedTransfers srcSolBoolNoRequire =
      [⟨"unchecked_transfer", "High",
        "Solidity function \x27transferOut\x27 contains unchecked transfer call. This can lead to silent failures.",
        2, 2, "(bool success, ) = token.call(sig_transfer(to));",
        "Check the return value using `(bool success, bytes memory returnData) = ...` and verify success with require."⟩] := by
  decide

/-- C6, amended. Within an extracted section (here with the extractor's
line counter 1), a function containing a low-level transfer call is
reported — one High-severity issue at the detector's line for the first
transfer-shaped line — exactly when the body lacks a success-boolean
declaration OR lacks a `require` guard; only a body that has both goes
unreported by this pass. -/
theorem c6_amended (s r : Bool) :
    findSolidityUncheckedTransfers (c6Section s r) 1 =
      (if !s || !r then
        [⟨"unchecked_transfer", "High",
          "Solidity function \x27transferOut\x27 contains unchecked transfer call. This can lead to silent failures.",
          2, 2,
          (if s then "(bool success, ) = token.call(transfer(a));"
           else "token.call(transfer(a));"),
          "Check the return value using `(bool success, bytes memory returnData) = ...` and verify success with require."⟩]
      else []) := by
  cases s <;> cases r <;> decide

end ClaimC6

section InvariantLemmas

theorem uncheckedHere_issues (code : String) (frames : List Frame) (n : RawNode) :
    ∀ i ∈ uncheckedHere code frames n, IsUncheckedIssue i := by
  intro i hi
  unfold uncheckedHere at hi
  split_ifs at hi <;> try simp_all [IsUncheckedIssue]
  all_goals (split_ifs at hi <;> simp_all [IsUncheckedIssue])

mutual

theorem findUnchecked_issues (code : String) (frames : List Frame) (n : RawNode) :
    ∀ i ∈ findUnchecked code frames n, IsUncheckedIssue i := by
  match n with
  | .mk ty sb eb sr er ci cs =>
    intro i hi
    rw [findUnchecked] at hi
    rcases List.mem_append.mp hi with h | h
    · exact uncheckedHere_issues code frames _ i h
    · exact findUncheckedChildren_issues code ty sb eb sr er ci frames [] cs i h

theorem findUncheckedChildren_issues (code ty : String) (sb eb sr er : Nat)
    (ci : Option Nat) (frames : List Frame) (leftRev : List RawNode)
    (cs : List RawNode) :
    ∀ i ∈ findUncheckedChildren code ty sb eb sr er ci frames leftRev cs,
      IsUncheckedIssue i := by
  match cs with
  | [] =>
    intro i hi
    rw [findUncheckedChildren] at hi
    simp at hi
  | c :: rest =>
    intro i hi
    rw [findUncheckedChildren] at hi
    rcases List.mem_append.mp hi with h | h
    · exact findUnchecked_issues code _ c i h
    · exact findUncheckedChildren_issues code ty sb eb sr er ci frames (c :: leftRev) rest i h

end

theorem findSolLine_issues (startLine i : Nat) (line : String) (suffix : List String) :
    ∀ x ∈ findSolLine startLine i line suffix, IsUncheckedIssue x := by
  intro x hx
  unfold findSolLine at hx
  split_ifs at hx <;> try simp_all [IsUncheckedIssue]
  all_goals (repeat' (first | (split_ifs at hx) | (split at hx)))
  all_goals simp_all [IsUncheckedIssue]

theorem solLinesGo_issues : ∀ (rest : List String) (startLine i : Nat),
    ∀ x ∈ solLinesGo startLine rest i, IsUncheckedIssue x := by
  intro rest
  induction rest with
  | nil =>
    intro startLine i x hx
    simp [solLinesGo] at hx
  | cons l rs ih =>
    intro startLine i x hx
    rw [solLinesGo] at hx
    rcases List.mem_append.mp hx with h | h
    · exact findSolLine_issues startLine i l (l :: rs) x h
    · exact ih startLine (i + 1) x h

theorem predefForFunc_issues (startLine lineIdx : Nat) (line fname : String)
    (suffix : List String) (i0 : Nat) :
    ∀ x ∈ (predefForFunc startLine lineIdx line fname suffix i0).1.toList,
      IsUncheckedIssue x := by
  intro x hx
  unfold predefForFunc at hx
  split_ifs at hx <;> try simp_all [IsUncheckedIssue]
  all_goals (repeat' (first | (split_ifs at hx) | (split at hx)))
  all_goals (try simp_all [IsUncheckedIssue])
  all_goals (try subst x)
  all_goals exact ⟨rfl, rfl⟩

theorem predefLine_issues (startLine lineIdx : Nat) (line : String)
    (suffix : List String) :
    ∀ x ∈ predefLine startLine lineIdx line suffix, IsUncheckedIssue x := by
  intro x hx
  unfold predefLine at hx
  rcases List.mem_append.mp hx with h | h
  · exact predefForFunc_issues _ _ _ _ _ _ x h
  · exact predefForFunc_issues _ _ _ _ _ _ x h

theorem predefGo_issues : ∀ (rest : List String) (startLine i : Nat),
    ∀ x ∈ predefGo startLine rest i, IsUncheckedIssue x := by
  intro rest
  induction rest with
  | nil =>
    intro startLine i x hx
    simp [predefGo] at hx
  | cons l rs ih =>
    intro startLine i x hx
    rw [predefGo] at hx
    rcases List.mem_append.mp hx with h | h
    · exact predefLine_issues startLine i l (l :: rs) x h
    · exact ih startLine (i + 1) x h

theorem checkSol_issues (code : String) :
    ∀ x ∈ checkSolidityUncheckedTransfers code, IsUncheckedIssue x := by
  intro x hx
  unfold checkSolidityUncheckedTransfers at hx
  rw [List.mem_flatten] at hx
  obtain ⟨l, hl, hxl⟩ := hx
  rw [List.mem_map] at hl
  obtain ⟨s, _, rfl⟩ := hl
  rcases List.mem_append.mp hxl with h | h
  · exact solLinesGo_issues _ _ _ x h
  · exact predefGo_issues _ _ _ x h

theorem checkFn_issues (code : String) (frames : List Frame) (n : RawNode) :
    ∀ x ∈ (checkFunctionForUnsTransfers code frames n).1, IsUnsafeIssue x := by
  intro x hx
  simp only [checkFunctionForUnsTransfers] at hx
  repeat' (first | (split_ifs at hx) | (split at hx))
  all_goals simp_all [IsUnsafeIssue]

theorem solBranchU_issues (code : String) (frames : List Frame) (n : RawNode) :
    ∀ x ∈ (solBranchU code frames n).1, IsUnsafeIssue x := by
  intro x hx
  simp only [solBranchU] at hx
  repeat' (first | (split_ifs at hx) | (split at hx))
  all_goals simp_all [IsUnsafeIssue]

theorem unsHere_issues (code : String) (frames : List Frame) (n : RawNode) :
    ∀ x ∈ (unsHere code frames n).1, IsUnsafeIssue x := by
  intro x hx
  unfold unsHere at hx
  split at hx
  · exact checkFn_issues code frames n x hx
  · split at hx
    · exact solBranchU_issues code frames n x hx
    · simp at hx

mutual

theorem unsFind_issues (code : String) (frames : List Frame) (n : RawNode) :
    ∀ x ∈ (unsFind code frames n).1, IsUnsafeIssue x := by
  match n with
  | .mk ty sb eb sr er ci cs =>
    intro x hx
    rw [unsFind] at hx
    split at hx
    · exact unsHere_issues code frames _ x hx
    · rcases List.mem_append.mp hx with h | h
      · exact unsHere_issues code frames _ x h
      · exact unsFindChildren_issues code ty sb eb sr er ci frames [] cs x h

theorem unsFindChildren_issues (code ty : String) (sb eb sr er : Nat)
    (ci : Option Nat) (frames : List Frame) (leftRev : List RawNode)
    (cs : List RawNode) :
    ∀ x ∈ (unsFindChildren code ty sb eb sr er ci frames leftRev cs).1,
      IsUnsafeIssue x := by
  match cs with
  | [] =>
    intro x hx
    rw [unsFindChildren] at hx
    simp at hx
  | c :: rest =>
    intro x hx
    rw [unsFindChildren] at hx
    split at hx
    · exact unsFind_issues code _ c x hx
    · rcases List.mem_append.mp hx with h | h
      · exact unsFind_issues code _ c x h
      · exact unsFindChildren_issues code ty sb eb sr er ci frames (c :: leftRev) rest x h

end

end InvariantLemmas

section ClaimC10

/-- C10. Every issue the Unchecked-Transfer detector ever appends to the
sink has issue type `unchecked_transfer` and severity High, and every issue
the Unsafe-Transfer detector ever appends has issue type `unsafe_transfer`
and severity Medium — for every tree and every source text, over both the
tree passes and the embedded-`sol!` text passes; no other (type, severity)
pair is emitted by either detector. -/
theorem c10_issue_taxonomy (t : RawNode) (code : String) :
    (∀ i ∈ uncheckedDetect t code, IsUncheckedIssue i) ∧
    (∀ i ∈ (unsDetect t code).1, IsUnsafeIssue i) := by
  constructor
  · intro i hi
    unfold uncheckedDetect at hi
    rcases List.mem_append.mp hi with h | h
    · exact findUnchecked_issues code [] t i h
    · exact checkSol_issues code i h
  · intro i hi
    exact unsFind_issues code [] t i hi

/-- Witness for `c10_issue_taxonomy`: a discharged membership on each side —
the bare unchecked ERC20 transfer of `srcBareTransfer` and the `sol!`-block
function of `srcSolWrap`. -/
theorem c10_witness :
    IsUncheckedIssue
      ((uncheckedDetect treeBareTransfer srcBareTransfer).headD
        ⟨"", "", "", 0, 0, "", ""⟩) ∧
    IsUnsafeIssue
      ((unsDetect treeSolWrap srcSolWrap).1.headD ⟨"", "", "", 0, 0, "", ""⟩) :=
  ⟨(c10_issue_taxonomy treeBareTransfer srcBareTransfer).1 _ (by decide),
   (c10_issue_taxonomy treeSolWrap srcSolWrap).2 _ (by decide)⟩

end ClaimC10

end StylusAnalyzer
